import Mathlib

/-!
Shallow embedding of
`crates/biome_js_analyze/src/lint/correctness/no_undeclared_variables.rs`,
the `noUndeclaredVariables` lint rule of Biome, together with theorems about
its classification of unresolved references.

The external collaborators of the rule (the global tables
`crate::globals::{is_js_global, is_ts_global}`, the user allow-list test
`RuleContext::is_global`, and the JSX runtime configuration accessors) are
modelled as explicit parameters, exactly the data the rule reads from them.
-/

namespace Biome

/-- A span of source text, as `biome_rowan::TextRange` (start and end offset). -/
structure TextRange where
  start : Nat
  stop : Nat
deriving DecidableEq

/-- The view of a syntax token this rule uses: its trivia-trimmed text
(`text_trimmed()`) and its trivia-trimmed range (`text_trimmed_range()`). -/
structure Token where
  textTrimmed : String
  textTrimmedRange : TextRange
deriving DecidableEq

/-- The syntax-node kinds relevant to this rule: the two kinds probed by the
const-assertion check, the four variants of the `AnyJsFunction` union probed by
the `arguments` check, and representatives of every other kind (class methods
and object-literal methods are function-like constructs that are *not* part of
`AnyJsFunction`; `otherKind` stands for all remaining kinds). -/
inductive JsSyntaxKind where
  | jsReferenceIdentifier
  | tsReferenceType
  | tsAsExpression
  | jsArrowFunctionExpression
  | jsFunctionDeclaration
  | jsFunctionExpression
  | jsFunctionExportDefaultDeclaration
  | jsMethodClassMember
  | jsMethodObjectMember
  | jsClassDeclaration
  | otherKind
deriving DecidableEq

/-- The `biome_js_syntax::AnyJsFunction` union: arrow function expressions,
function declarations, function expressions and export-default function
declarations. -/
inductive AnyJsFunction where
  | jsArrowFunctionExpression
  | jsFunctionDeclaration
  | jsFunctionExpression
  | jsFunctionExportDefaultDeclaration
deriving DecidableEq

/-- `AnyJsFunction::cast` on a node: succeeds exactly for the four kinds of the
union, and fails (`none`) for every other kind. -/
def AnyJsFunction.cast : JsSyntaxKind → Option AnyJsFunction
  | JsSyntaxKind.jsArrowFunctionExpression => some AnyJsFunction.jsArrowFunctionExpression
  | JsSyntaxKind.jsFunctionDeclaration => some AnyJsFunction.jsFunctionDeclaration
  | JsSyntaxKind.jsFunctionExpression => some AnyJsFunction.jsFunctionExpression
  | JsSyntaxKind.jsFunctionExportDefaultDeclaration =>
      some AnyJsFunction.jsFunctionExportDefaultDeclaration
  | _ => none

/-- The identifier view of an unresolved reference (`as_js_identifier()`):
`value_token()` as an `Option` (the `SyntaxResult` error case, dropped by
`.ok()?` in the source, is `none`), and the kinds of the nodes returned by
`identifier.syntax().ancestors()`, the node itself first, then its parent,
grandparent, and so on up to the root. -/
structure JsReferenceIdentifier where
  valueToken : Option Token
  ancestors : List JsSyntaxKind

/-- The `under_as_expression` test of the source:
`identifier.parent::<TsReferenceType>().and_then(|ty| ty.parent::<TsAsExpression>()).is_some()`
— the identifier node's parent is a `TsReferenceType` whose own parent is a
`TsAsExpression`.  Since `ancestors` lists the node itself first, the parent
and grandparent are the second and third entries. -/
def JsReferenceIdentifier.under_as_expression (identifier : JsReferenceIdentifier) : Bool :=
  match identifier.ancestors with
  | _ :: JsSyntaxKind.tsReferenceType :: JsSyntaxKind.tsAsExpression :: _ => true
  | _ => false

/-- The body of the `matches!` pattern in the `arguments` check:
`matches!(AnyJsFunction::cast(ancestor), None | Some(JsArrowFunctionExpression(_)))`. -/
def matchesNoneOrArrow : Option AnyJsFunction → Bool
  | none => true
  | some AnyJsFunction.jsArrowFunctionExpression => true
  | some _ => false

/-- The `is_in_non_arrow_function` test of the source: some ancestor node casts
to `AnyJsFunction` and is not an arrow function expression
(`ancestors().any(|ancestor| !matches!(cast(ancestor), None | Some(Arrow)))`). -/
def is_in_non_arrow_function (identifier : JsReferenceIdentifier) : Bool :=
  identifier.ancestors.any fun ancestor => !(matchesNoneOrArrow (AnyJsFunction.cast ancestor))

/-- An unresolved reference, as a closed variant over the three views the rule
probes: `as_js_identifier()`, `as_jsx_like()` and `as_jsx_fragment()`.  For the
JSX views we keep exactly the data the rule reads: `name_value_token()` (an
`Option` in the source) and `l_angle_token()` (a `SyntaxResult`, whose error
case is `none` here, matching `.ok()?`). -/
inductive UnresolvedReference where
  | jsIdentifier (identifier : JsReferenceIdentifier)
  | jsxLike (name_value_token : Option Token)
  | jsxFragment (l_angle_token : Option Token)

/-- `biome_analyze::options::JsxRuntime`: the automatic (transparent) runtime
or the classic React runtime. -/
inductive JsxRuntime where
  | transparent
  | reactClassic
deriving DecidableEq

/-- `biome_js_syntax::Language`: the rule only matches on the variant, ignoring
the payload of `Language::TypeScript { .. }` (kept here as a Bool field). -/
inductive Language where
  | javaScript
  | typeScript (definition_file : Bool)
deriving DecidableEq

/-- The part of `JsFileSource` the rule reads: `language()`. -/
structure JsFileSource where
  language : Language
deriving DecidableEq

/-- The global tables `crate::globals::{is_js_global, is_ts_global}`: external,
fixed membership tests over identifier strings, passed as parameters. -/
structure Globals where
  is_js_global : String → Bool
  is_ts_global : String → Bool

/-- `fn is_global(reference_name: &str, source_type: &JsFileSource) -> bool`:
a JavaScript source consults only the JS table, a TypeScript source the union
of the JS and TS tables. -/
def is_global (g : Globals) (reference_name : String) (source_type : JsFileSource) : Bool :=
  match source_type.language with
  | Language.javaScript => g.is_js_global reference_name
  | Language.typeScript _ => g.is_js_global reference_name || g.is_ts_global reference_name

/-- The slice of `RuleContext` the rule consults: the user allow-list
membership test `ctx.is_global`, the source type `ctx.source_type`, the JSX
runtime mode `ctx.jsx_runtime()`, and the configured factory names
`ctx.jsx_factory()` / `ctx.jsx_fragment_factory()` (`none` when absent). -/
structure RuleContext where
  is_global : String → Bool
  source_type : JsFileSource
  jsx_runtime : JsxRuntime
  jsx_factory : Option String
  jsx_fragment_factory : Option String

/-- `const REACT_JSX_FACTORY: &str = "React";` -/
def REACT_JSX_FACTORY : String := "React"

/-- The body of the `filter_map` closure in `NoUndeclaredVariables::run`:
classifies one unresolved reference.  `some (span, displayName)` is a Flagged
result; `none` means the reference is Resolved (no signal). -/
def classify (g : Globals) (ctx : RuleContext) (reference : UnresolvedReference) :
    Option (TextRange × String) :=
  match reference with
  | UnresolvedReference.jsIdentifier identifier =>
    let under_as_expression := identifier.under_as_expression
    match identifier.valueToken with
    | none => none
    | some token =>
      let text := token.textTrimmed
      let source_type := ctx.source_type
      if ctx.is_global text then none
      else if text == "const" && under_as_expression then none
      else if text == "arguments" && is_in_non_arrow_function identifier then none
      else if is_global g text source_type then none
      else some (token.textTrimmedRange, text)
  | UnresolvedReference.jsxLike name_value_token =>
    if ctx.jsx_runtime == JsxRuntime.reactClassic then
      match ctx.jsx_factory with
      | none => none
      | some jsx_factory =>
        if jsx_factory == REACT_JSX_FACTORY then none
        else
          match name_value_token with
          | none => none
          | some tok => some (tok.textTrimmedRange, jsx_factory)
    else none
  | UnresolvedReference.jsxFragment l_angle_token =>
    if ctx.jsx_runtime == JsxRuntime.reactClassic then
      match ctx.jsx_fragment_factory with
      | none => none
      | some jsx_fragment_factory =>
        if jsx_fragment_factory == REACT_JSX_FACTORY then none
        else
          match l_angle_token with
          | none => none
          | some tok => some (tok.textTrimmedRange, jsx_fragment_factory)
    else none

/-- `NoUndeclaredVariables::run`: classify every unresolved reference of the
file in order, keeping the Flagged results (`filter_map ... collect`). -/
def run (g : Globals) (ctx : RuleContext) (references : List UnresolvedReference) :
    List (TextRange × String) :=
  references.filterMap (classify g ctx)

/-- One piece of `biome_console` markup, as used by this rule's messages:
plain text, an `<Emphasis>` fragment, or a `<Hyperlink>` fragment. -/
inductive MarkupPiece where
  | text (s : String)
  | emphasis (s : String)
  | hyperlink (href : String) (s : String)
deriving DecidableEq

/-- The fields of `RuleDiagnostic` this rule sets: the span, the message
markup, and the attached notes. -/
structure RuleDiagnostic where
  span : TextRange
  message : List MarkupPiece
  notes : List (List MarkupPiece)
deriving DecidableEq

/-- `NoUndeclaredVariables::diagnostic`: one diagnostic per flagged state, at
the state's span, with message
`"The "<Emphasis>{name}</Emphasis>" variable is undeclared."` and one static
note pointing at the `javascript.globals` configuration. -/
def diagnostic (state : TextRange × String) : Option RuleDiagnostic :=
  some
    { span := state.1
      message :=
        [MarkupPiece.text ("The "), MarkupPiece.emphasis state.2,
          MarkupPiece.text (" variable is undeclared.")]
      notes :=
        [[MarkupPiece.text
            ("By default, Biome recognizes browser and Node.js globals.\nYou can ignore more globals using the "),
          MarkupPiece.hyperlink
            ("https://biomejs.dev/reference/configuration/#javascriptglobals")
            ("javascript.globals"),
          MarkupPiece.text (" configuration.")]] }

/-- The analyzer framework emits diagnostics by calling
`NoUndeclaredVariables::diagnostic` on each signal produced by `run`, in
order. -/
def emit_diagnostics (states : List (TextRange × String)) : List RuleDiagnostic :=
  states.filterMap diagnostic

/-- Concrete global tables for evaluation: `Promise` is a JS global,
`PromiseLike` a TS-only global (as in the rule's own doc examples). -/
def sampleGlobals : Globals where
  is_js_global := fun s => s == "Promise"
  is_ts_global := fun s => s == "PromiseLike"

/-- A JavaScript source file. -/
def jsSource : JsFileSource where
  language := Language.javaScript

/-- A TypeScript source file. -/
def tsSource : JsFileSource where
  language := Language.typeScript false

/-- A JavaScript-file context with allow-list containing only `myGlobal`,
automatic JSX runtime, no configured factories. -/
def jsCtx : RuleContext where
  is_global := fun s => s == "myGlobal"
  source_type := jsSource
  jsx_runtime := JsxRuntime.transparent
  jsx_factory := none
  jsx_fragment_factory := none

/-- The TypeScript counterpart of `jsCtx`. -/
def tsCtx : RuleContext where
  is_global := fun s => s == "myGlobal"
  source_type := tsSource
  jsx_runtime := JsxRuntime.transparent
  jsx_factory := none
  jsx_fragment_factory := none

/-- A classic-JSX-runtime context with `jsxFactory = "h"` and
`jsxFragmentFactory = "Frag"`. -/
def classicCtx : RuleContext where
  is_global := fun _ => false
  source_type := jsSource
  jsx_runtime := JsxRuntime.reactClassic
  jsx_factory := some ("h")
  jsx_fragment_factory := some ("Frag")

/-- A classic-JSX-runtime context with no configured factory names. -/
def classicNoFactoryCtx : RuleContext where
  is_global := fun _ => false
  source_type := jsSource
  jsx_runtime := JsxRuntime.reactClassic
  jsx_factory := none
  jsx_fragment_factory := none

/-- The token of a `foobar;` reference at offsets 0..6. -/
def foobarToken : Token where
  textTrimmed := "foobar"
  textTrimmedRange := { start := 0, stop := 6 }

/-- An unresolved plain identifier `foobar` at the top level of a file. -/
def foobarIdentifier : JsReferenceIdentifier where
  valueToken := some foobarToken
  ancestors := [JsSyntaxKind.jsReferenceIdentifier, JsSyntaxKind.otherKind]

/-- An unresolved identifier `PromiseLike` used as a value at the top level. -/
def promiseLikeIdentifier : JsReferenceIdentifier where
  valueToken := some { textTrimmed := "PromiseLike", textTrimmedRange := { start := 0, stop := 11 } }
  ancestors := [JsSyntaxKind.jsReferenceIdentifier, JsSyntaxKind.otherKind]

/-- An `arguments` token at offsets 30..39. -/
def argumentsToken : Token where
  textTrimmed := "arguments"
  textTrimmedRange := { start := 30, stop := 39 }

/-- An `arguments` reference inside the body of a function declaration. -/
def argumentsInFunctionDecl : JsReferenceIdentifier where
  valueToken := some argumentsToken
  ancestors :=
    [JsSyntaxKind.jsReferenceIdentifier, JsSyntaxKind.otherKind,
      JsSyntaxKind.jsFunctionDeclaration, JsSyntaxKind.otherKind]

/-- An `arguments` reference inside a class-method body with no enclosing
function: the method casts to no `AnyJsFunction` variant. -/
def argumentsInClassMethod : JsReferenceIdentifier where
  valueToken := some argumentsToken
  ancestors :=
    [JsSyntaxKind.jsReferenceIdentifier, JsSyntaxKind.otherKind,
      JsSyntaxKind.jsMethodClassMember, JsSyntaxKind.jsClassDeclaration]

/-- The identifier `const` as the operand of a `TsReferenceType` directly under
a `TsAsExpression`, as in `x as const`. -/
def constIdentifier : JsReferenceIdentifier where
  valueToken := some { textTrimmed := "const", textTrimmedRange := { start := 10, stop := 15 } }
  ancestors :=
    [JsSyntaxKind.jsReferenceIdentifier, JsSyntaxKind.tsReferenceType,
      JsSyntaxKind.tsAsExpression, JsSyntaxKind.otherKind]

/-- An unresolved identifier `myGlobal` (allow-listed in `jsCtx`). -/
def myGlobalIdentifier : JsReferenceIdentifier where
  valueToken := some { textTrimmed := "myGlobal", textTrimmedRange := { start := 0, stop := 8 } }
  ancestors := [JsSyntaxKind.jsReferenceIdentifier, JsSyntaxKind.otherKind]

/-- An identifier reference whose value token is missing. -/
def noTokenIdentifier : JsReferenceIdentifier where
  valueToken := none
  ancestors := [JsSyntaxKind.jsReferenceIdentifier]

/-- The name token of a JSX element `<Foo/>`. -/
def fooNameToken : Token where
  textTrimmed := "Foo"
  textTrimmedRange := { start := 1, stop := 4 }

/-- The opening angle-bracket token of a JSX fragment `<>`. -/
def lAngleToken : Token where
  textTrimmed := "<"
  textTrimmedRange := { start := 0, stop := 1 }

/-- Helper: an identifier whose trimmed text is in the user allow-list is
always classified Resolved, whatever else holds. -/
theorem classify_of_allow_listed (g : Globals) (ctx : RuleContext)
    (identifier : JsReferenceIdentifier) (token : Token)
    (htok : identifier.valueToken = some token)
    (hallow : ctx.is_global token.textTrimmed = true) :
    classify g ctx (UnresolvedReference.jsIdentifier identifier) = none := by
  simp [classify, htok, hallow]

/-- Helper: an `arguments` identifier with a non-arrow function-like ancestor
is classified Resolved. -/
theorem classify_arguments_in_non_arrow (g : Globals) (ctx : RuleContext)
    (identifier : JsReferenceIdentifier) (token : Token)
    (htok : identifier.valueToken = some token)
    (htext : token.textTrimmed = "arguments")
    (hin : is_in_non_arrow_function identifier = true) :
    classify g ctx (UnresolvedReference.jsIdentifier identifier) = none := by
  by_cases hal : ctx.is_global token.textTrimmed
  · exact classify_of_allow_listed g ctx identifier token htok hal
  · simp [classify, htok, htext, hal, hin]

/-- Helper: the flagging case of the identifier branch — no rule resolves the
reference, so it is flagged at the token's trimmed range with its text. -/
theorem classify_identifier_flagged (g : Globals) (ctx : RuleContext)
    (identifier : JsReferenceIdentifier) (token : Token)
    (htok : identifier.valueToken = some token)
    (hallow : ctx.is_global token.textTrimmed = false)
    (hconst : (token.textTrimmed == "const" && identifier.under_as_expression) = false)
    (hargs : (token.textTrimmed == "arguments" && is_in_non_arrow_function identifier) = false)
    (hglob : is_global g token.textTrimmed ctx.source_type = false) :
    classify g ctx (UnresolvedReference.jsIdentifier identifier) =
      some (token.textTrimmedRange, token.textTrimmed) := by
  simp [classify, htok, hallow, hconst, hargs, hglob]

/-- Helper: an `arguments` identifier with no non-arrow function-like ancestor
and not allow-listed is decided by the global-table check alone. -/
theorem classify_arguments_fallthrough (g : Globals) (ctx : RuleContext)
    (identifier : JsReferenceIdentifier) (token : Token)
    (htok : identifier.valueToken = some token)
    (htext : token.textTrimmed = "arguments")
    (hnotin : is_in_non_arrow_function identifier = false)
    (hallow : ctx.is_global "arguments" = false) :
    classify g ctx (UnresolvedReference.jsIdentifier identifier) =
      if is_global g "arguments" ctx.source_type then none
      else some (token.textTrimmedRange, "arguments") := by
  by_cases hg : is_global g "arguments" ctx.source_type
  · simp [classify, htok, htext, hallow, hnotin, hg]
  · simp [classify, htok, htext, hallow, hnotin, hg]

/-- C1: an `Identifier` unresolved reference whose trimmed token text is not in
the user allow-list, not exempted by the const-assertion rule, not exempted by
the `arguments` rule, and not in the global tables applicable to the source
type, is classified Flagged with the token's trivia-trimmed range as span and
the token text as display name — exactly one (`some`) result. -/
theorem C1_identifier_flagged (g : Globals) (ctx : RuleContext)
    (identifier : JsReferenceIdentifier) (token : Token)
    (htok : identifier.valueToken = some token)
    (hallow : ctx.is_global token.textTrimmed = false)
    (hconst : (token.textTrimmed == "const" && identifier.under_as_expression) = false)
    (hargs : (token.textTrimmed == "arguments" && is_in_non_arrow_function identifier) = false)
    (hglob : is_global g token.textTrimmed ctx.source_type = false) :
    classify g ctx (UnresolvedReference.jsIdentifier identifier) =
      some (token.textTrimmedRange, token.textTrimmed) :=
  classify_identifier_flagged g ctx identifier token htok hallow hconst hargs hglob

/-- C1 witness: `foobar;` in a JavaScript file with default tables is flagged
at offsets 0..6 with display name `foobar`. -/
theorem C1_identifier_flagged_witness :
    classify sampleGlobals jsCtx (UnresolvedReference.jsIdentifier foobarIdentifier) =
      some ({ start := 0, stop := 6 }, "foobar") :=
  C1_identifier_flagged sampleGlobals jsCtx foobarIdentifier foobarToken rfl
    (by decide) (by decide) (by decide) (by decide)

/-- C2: for every name, a TypeScript source recognizes as global exactly the
union of the JS and TS tables, a JavaScript source exactly the JS table; and a
name in the TS table only (not allow-listed, not otherwise exempt) is flagged
in a JavaScript file but resolved in an equivalent TypeScript file. -/
theorem C2_language_union (g : Globals) (d : Bool) (name : String)
    (ctxJs ctxTs : RuleContext) (identifier : JsReferenceIdentifier) (token : Token)
    (hjs : ctxJs.source_type = { language := Language.javaScript })
    (hts : ctxTs.source_type = { language := Language.typeScript d })
    (htok : identifier.valueToken = some token)
    (htext : token.textTrimmed = name)
    (hallowJs : ctxJs.is_global name = false)
    (hallowTs : ctxTs.is_global name = false)
    (hconst : (name == "const" && identifier.under_as_expression) = false)
    (hargs : (name == "arguments" && is_in_non_arrow_function identifier) = false)
    (hjsg : g.is_js_global name = false)
    (htsg : g.is_ts_global name = true) :
    (∀ n, is_global g n { language := Language.typeScript d } =
      (g.is_js_global n || g.is_ts_global n))
    ∧ (∀ n, is_global g n { language := Language.javaScript } = g.is_js_global n)
    ∧ classify g ctxJs (UnresolvedReference.jsIdentifier identifier) =
        some (token.textTrimmedRange, name)
    ∧ classify g ctxTs (UnresolvedReference.jsIdentifier identifier) = none := by
  refine ⟨fun n => rfl, fun n => rfl, ?_, ?_⟩
  · have hg : is_global g name ctxJs.source_type = false := by
      rw [hjs]; exact hjsg
    have := classify_identifier_flagged g ctxJs identifier token htok
      (htext ▸ hallowJs) (htext ▸ hconst) (htext ▸ hargs) (htext ▸ hg)
    rw [this, htext]
  · have hg : is_global g name ctxTs.source_type = true := by
      rw [hts]; simp [is_global, htsg]
    simp [classify, htok, htext, hallowTs, hconst, hargs, hg]

/-- C2 witness: with `PromiseLike` in the TS table only, `PromiseLike;` is
flagged in a JavaScript file and resolved in a TypeScript file. -/
theorem C2_language_union_witness :
    classify sampleGlobals jsCtx (UnresolvedReference.jsIdentifier promiseLikeIdentifier) =
      some ({ start := 0, stop := 11 }, "PromiseLike")
    ∧ classify sampleGlobals tsCtx (UnresolvedReference.jsIdentifier promiseLikeIdentifier) =
      none :=
  (C2_language_union sampleGlobals false "PromiseLike" jsCtx tsCtx promiseLikeIdentifier
    { textTrimmed := "PromiseLike", textTrimmedRange := { start := 0, stop := 11 } }
    rfl rfl rfl rfl (by decide) (by decide) (by decide) (by decide) (by decide)
    (by decide)).2.2

/-- C3: an `arguments` identifier with some non-arrow function-like ancestor is
always Resolved; in particular one with a function declaration among its
ancestors is never flagged; with no such ancestor it falls through to the
global-table check (flagged exactly when the tables miss, given it is not
allow-listed). -/
theorem C3_arguments_exemption (g : Globals) (ctx : RuleContext)
    (identifier : JsReferenceIdentifier) (token : Token)
    (htok : identifier.valueToken = some token)
    (htext : token.textTrimmed = "arguments") :
    (is_in_non_arrow_function identifier = true →
      classify g ctx (UnresolvedReference.jsIdentifier identifier) = none)
    ∧ (JsSyntaxKind.jsFunctionDeclaration ∈ identifier.ancestors →
      classify g ctx (UnresolvedReference.jsIdentifier identifier) = none)
    ∧ (is_in_non_arrow_function identifier = false →
      ctx.is_global "arguments" = false →
      classify g ctx (UnresolvedReference.jsIdentifier identifier) =
        if is_global g "arguments" ctx.source_type then none
        else some (token.textTrimmedRange, "arguments")) := by
  refine ⟨fun hin => classify_arguments_in_non_arrow g ctx identifier token htok htext hin,
    fun hmem => ?_,
    fun hnotin hallow =>
      classify_arguments_fallthrough g ctx identifier token htok htext hnotin hallow⟩
  refine classify_arguments_in_non_arrow g ctx identifier token htok htext ?_
  simp only [is_in_non_arrow_function, List.any_eq_true]
  exact ⟨JsSyntaxKind.jsFunctionDeclaration, hmem, by decide⟩

/-- C3 witness: `arguments` directly inside a function declaration is
resolved. -/
theorem C3_arguments_exemption_witness :
    classify sampleGlobals jsCtx (UnresolvedReference.jsIdentifier argumentsInFunctionDecl) =
      none :=
  (C3_arguments_exemption sampleGlobals jsCtx argumentsInFunctionDecl argumentsToken
    rfl rfl).2.1 (by decide)

/-- C4: the identifier `const` as the operand of a `TsReferenceType` directly
under a `TsAsExpression` is always Resolved, for every choice of global
tables. -/
theorem C4_const_assertion (g : Globals) (ctx : RuleContext)
    (identifier : JsReferenceIdentifier) (token : Token)
    (htok : identifier.valueToken = some token)
    (htext : token.textTrimmed = "const")
    (hunder : identifier.under_as_expression = true) :
    classify g ctx (UnresolvedReference.jsIdentifier identifier) = none := by
  by_cases hal : ctx.is_global token.textTrimmed
  · exact classify_of_allow_listed g ctx identifier token htok hal
  · simp [classify, htok, htext, hal, hunder]

/-- C4 witness: the `const` of `x as const` is resolved in a TypeScript file
whose tables contain nothing named `const`. -/
theorem C4_const_assertion_witness :
    classify sampleGlobals tsCtx (UnresolvedReference.jsIdentifier constIdentifier) = none :=
  C4_const_assertion sampleGlobals tsCtx constIdentifier
    { textTrimmed := "const", textTrimmedRange := { start := 10, stop := 15 } }
    rfl rfl rfl

/-- C5: an identifier whose text is in the user allow-list is always Resolved —
never flagged — whatever the built-in tables, the ancestors, or anything else:
the allow-list check precedes every other identifier rule. -/
theorem C5_allow_list (g : Globals) (ctx : RuleContext)
    (identifier : JsReferenceIdentifier) (token : Token)
    (htok : identifier.valueToken = some token)
    (hallow : ctx.is_global token.textTrimmed = true) :
    classify g ctx (UnresolvedReference.jsIdentifier identifier) = none :=
  classify_of_allow_listed g ctx identifier token htok hallow

/-- C5 witness: `myGlobal`, allow-listed but in no built-in table, is
resolved. -/
theorem C5_allow_list_witness :
    classify sampleGlobals jsCtx (UnresolvedReference.jsIdentifier myGlobalIdentifier) = none :=
  C5_allow_list sampleGlobals jsCtx myGlobalIdentifier
    { textTrimmed := "myGlobal", textTrimmedRange := { start := 0, stop := 8 } }
    rfl (by decide)

/-- C6: JSX element-name and fragment references are always Resolved outside
the classic runtime; in the classic runtime, with a configured factory and a
present token, an element name is Resolved iff `jsxFactory = "React"` and
otherwise Flagged at the name token's trimmed range with the factory as display
name, and a fragment is Resolved iff `jsxFragmentFactory = "React"` and
otherwise Flagged at the opening angle bracket's trimmed range with the
fragment factory as display name. -/
theorem C6_jsx_classic (g : Globals) (ctx : RuleContext)
    (nameTok angleTok : Token) (f ff : String)
    (hf : ctx.jsx_factory = some f)
    (hff : ctx.jsx_fragment_factory = some ff) :
    (ctx.jsx_runtime ≠ JsxRuntime.reactClassic →
      classify g ctx (UnresolvedReference.jsxLike (some nameTok)) = none
      ∧ classify g ctx (UnresolvedReference.jsxFragment (some angleTok)) = none)
    ∧ (ctx.jsx_runtime = JsxRuntime.reactClassic →
      ((classify g ctx (UnresolvedReference.jsxLike (some nameTok)) = none ↔ f = "React")
       ∧ (f ≠ "React" →
          classify g ctx (UnresolvedReference.jsxLike (some nameTok)) =
            some (nameTok.textTrimmedRange, f))
       ∧ (classify g ctx (UnresolvedReference.jsxFragment (some angleTok)) = none ↔
          ff = "React")
       ∧ (ff ≠ "React" →
          classify g ctx (UnresolvedReference.jsxFragment (some angleTok)) =
            some (angleTok.textTrimmedRange, ff)))) := by
  constructor
  · intro hmode
    constructor <;> simp [classify, hmode]
  · intro hmode
    refine ⟨?_, fun hne => ?_, ?_, fun hne => ?_⟩
    · by_cases hfr : f = "React" <;>
        simp [classify, hmode, hf, REACT_JSX_FACTORY, hfr]
    · simp [classify, hmode, hf, REACT_JSX_FACTORY, hne]
    · by_cases hfr : ff = "React" <;>
        simp [classify, hmode, hff, REACT_JSX_FACTORY, hfr]
    · simp [classify, hmode, hff, REACT_JSX_FACTORY, hne]

/-- C6 witness: in classic mode with `jsxFactory = "h"` and
`jsxFragmentFactory = "Frag"`, `<Foo/>` is flagged at the name token with
display name `h`, and `<>` at the angle bracket with display name `Frag`. -/
theorem C6_jsx_classic_witness :
    classify sampleGlobals classicCtx (UnresolvedReference.jsxLike (some fooNameToken)) =
      some ({ start := 1, stop := 4 }, "h")
    ∧ classify sampleGlobals classicCtx (UnresolvedReference.jsxFragment (some lAngleToken)) =
      some ({ start := 0, stop := 1 }, "Frag") :=
  ⟨((C6_jsx_classic sampleGlobals classicCtx fooNameToken lAngleToken "h" "Frag"
      rfl rfl).2 rfl).2.1 (by decide),
   ((C6_jsx_classic sampleGlobals classicCtx fooNameToken lAngleToken "h" "Frag"
      rfl rfl).2 rfl).2.2.2 (by decide)⟩

/-- C7: classification is total (it always returns a value) and fails open:
a missing identifier value token, a missing JSX factory or fragment-factory
name, and a missing JSX name or angle-bracket token each classify the
reference Resolved rather than Flagged. -/
theorem C7_fail_open (g : Globals) (ctx : RuleContext)
    (identifier : JsReferenceIdentifier) (t1 t2 : Option Token) :
    (identifier.valueToken = none →
      classify g ctx (UnresolvedReference.jsIdentifier identifier) = none)
    ∧ (ctx.jsx_factory = none →
      classify g ctx (UnresolvedReference.jsxLike t1) = none)
    ∧ (ctx.jsx_fragment_factory = none →
      classify g ctx (UnresolvedReference.jsxFragment t2) = none)
    ∧ classify g ctx (UnresolvedReference.jsxLike none) = none
    ∧ classify g ctx (UnresolvedReference.jsxFragment none) = none := by
  refine ⟨fun htok => by simp [classify, htok], fun hf => ?_, fun hff => ?_, ?_, ?_⟩
  · by_cases hmode : ctx.jsx_runtime = JsxRuntime.reactClassic <;>
      simp [classify, hmode, hf]
  · by_cases hmode : ctx.jsx_runtime = JsxRuntime.reactClassic <;>
      simp [classify, hmode, hff]
  · by_cases hmode : ctx.jsx_runtime = JsxRuntime.reactClassic
    · rcases hfac : ctx.jsx_factory with _ | f
      · simp [classify, hmode, hfac]
      · by_cases hfr : f = REACT_JSX_FACTORY <;> simp [classify, hmode, hfac, hfr]
    · simp [classify, hmode]
  · by_cases hmode : ctx.jsx_runtime = JsxRuntime.reactClassic
    · rcases hfac : ctx.jsx_fragment_factory with _ | f
      · simp [classify, hmode, hfac]
      · by_cases hfr : f = REACT_JSX_FACTORY <;> simp [classify, hmode, hfac, hfr]
    · simp [classify, hmode]

/-- C7 witness: a token-less identifier and factory-less classic-mode JSX
references are all resolved. -/
theorem C7_fail_open_witness :
    classify sampleGlobals classicNoFactoryCtx
      (UnresolvedReference.jsIdentifier noTokenIdentifier) = none
    ∧ classify sampleGlobals classicNoFactoryCtx
      (UnresolvedReference.jsxLike (some fooNameToken)) = none
    ∧ classify sampleGlobals classicNoFactoryCtx
      (UnresolvedReference.jsxFragment (some lAngleToken)) = none :=
  ⟨(C7_fail_open sampleGlobals classicNoFactoryCtx noTokenIdentifier
      (some fooNameToken) (some lAngleToken)).1 rfl,
   (C7_fail_open sampleGlobals classicNoFactoryCtx noTokenIdentifier
      (some fooNameToken) (some lAngleToken)).2.1 rfl,
   (C7_fail_open sampleGlobals classicNoFactoryCtx noTokenIdentifier
      (some fooNameToken) (some lAngleToken)).2.2.1 rfl⟩

/-- C8 counterexample: the diagnostic for the flagged state `(0..6, "foobar")`
does not carry the message claimed by the spec — the emphasized name followed
by " variable is undeclared." — because the actual message starts with the
text piece "The ". -/
theorem C8_message_counterexample :
    (diagnostic ({ start := 0, stop := 6 }, "foobar")).map RuleDiagnostic.message ≠
      some [MarkupPiece.emphasis ("foobar"),
        MarkupPiece.text (" variable is undeclared.")] := by
  decide

/-- C8 (amended): for each flagged `(span, displayName)` exactly one diagnostic
is produced, at that span, with message "The `displayName` variable is
undeclared." (the name emphasized, substituted literally) and one static note
pointing at the `javascript.globals` configuration option; emission maps every
flagged state to its own diagnostic in order, with no merging or
deduplication of repeated names. -/
theorem C8_diagnostic_amended (states : List (TextRange × String))
    (span : TextRange) (name : String) :
    diagnostic (span, name) =
      some
        { span := span
          message :=
            [MarkupPiece.text ("The "), MarkupPiece.emphasis name,
              MarkupPiece.text (" variable is undeclared.")]
          notes :=
            [[MarkupPiece.text
                ("By default, Biome recognizes browser and Node.js globals.\nYou can ignore more globals using the "),
              MarkupPiece.hyperlink
                ("https://biomejs.dev/reference/configuration/#javascriptglobals")
                ("javascript.globals"),
              MarkupPiece.text (" configuration.")]] }
    ∧ emit_diagnostics states = states.map (fun st =>
        { span := st.1
          message :=
            [MarkupPiece.text ("The "), MarkupPiece.emphasis st.2,
              MarkupPiece.text (" variable is undeclared.")]
          notes :=
            [[MarkupPiece.text
                ("By default, Biome recognizes browser and Node.js globals.\nYou can ignore more globals using the "),
              MarkupPiece.hyperlink
                ("https://biomejs.dev/reference/configuration/#javascriptglobals")
                ("javascript.globals"),
              MarkupPiece.text (" configuration.")]] })
    ∧ (emit_diagnostics states).length = states.length := by
  refine ⟨rfl, ?_, ?_⟩
  · induction states with
    | nil => rfl
    | cons st rest ih => simp [emit_diagnostics, diagnostic, List.filterMap_cons] at ih ⊢; exact ih
  · induction states with
    | nil => rfl
    | cons st rest ih => simp [emit_diagnostics, diagnostic, List.filterMap_cons] at ih ⊢

/-- C9: `run` classifies each reference pointwise — a reference's contribution
to the flag list depends only on that reference, the tables and the
configuration, never on its position or on the surrounding references; as a
pure function, re-running it on unchanged input reproduces the identical,
order-stable flag list. -/
theorem C9_run_pointwise (g : Globals) (ctx : RuleContext)
    (front back : List UnresolvedReference) (r : UnresolvedReference) :
    run g ctx (front ++ r :: back) =
      run g ctx front ++ (classify g ctx r).toList ++ run g ctx back := by
  cases h : classify g ctx r <;>
    simp [run, List.filterMap_append, List.filterMap_cons, h]

/-- Helper: `matchesNoneOrArrow o` is false exactly when `o` is a successful
cast to something other than an arrow function expression. -/
theorem matchesNoneOrArrow_eq_false (o : Option AnyJsFunction) :
    matchesNoneOrArrow o = false ↔
      (o ≠ none ∧ o ≠ some AnyJsFunction.jsArrowFunctionExpression) := by
  cases o with
  | none => simp [matchesNoneOrArrow]
  | some a => cases a <;> simp [matchesNoneOrArrow]

/-- C10: the `arguments` exemption fires exactly when some ancestor casts to
the `AnyJsFunction` union and is not an arrow function expression; class
methods and object-literal methods do not cast, so an `arguments` identifier
whose ancestors all fail the cast (or are arrows) is flagged whenever it is
neither allow-listed nor global. -/
theorem C10_cast_boundary (g : Globals) (ctx : RuleContext)
    (identifier : JsReferenceIdentifier) (token : Token)
    (htok : identifier.valueToken = some token)
    (htext : token.textTrimmed = "arguments")
    (hanc : ∀ k ∈ identifier.ancestors,
      AnyJsFunction.cast k = none ∨
        AnyJsFunction.cast k = some AnyJsFunction.jsArrowFunctionExpression)
    (hallow : ctx.is_global "arguments" = false)
    (hglob : is_global g "arguments" ctx.source_type = false) :
    (is_in_non_arrow_function identifier = true ↔
      ∃ k ∈ identifier.ancestors,
        AnyJsFunction.cast k ≠ none ∧
          AnyJsFunction.cast k ≠ some AnyJsFunction.jsArrowFunctionExpression)
    ∧ AnyJsFunction.cast JsSyntaxKind.jsMethodClassMember = none
    ∧ AnyJsFunction.cast JsSyntaxKind.jsMethodObjectMember = none
    ∧ classify g ctx (UnresolvedReference.jsIdentifier identifier) =
        some (token.textTrimmedRange, "arguments") := by
  have hchar : is_in_non_arrow_function identifier = true ↔
      ∃ k ∈ identifier.ancestors,
        AnyJsFunction.cast k ≠ none ∧
          AnyJsFunction.cast k ≠ some AnyJsFunction.jsArrowFunctionExpression := by
    simp only [is_in_non_arrow_function, List.any_eq_true, Bool.not_eq_true',
      matchesNoneOrArrow_eq_false]
  refine ⟨hchar, rfl, rfl, ?_⟩
  have hnotin : is_in_non_arrow_function identifier = false := by
    rw [Bool.eq_false_iff]
    intro hin
    rcases hchar.mp hin with ⟨k, hmem, hcast, harrow⟩
    rcases hanc k hmem with h | h
    · exact hcast h
    · exact harrow h
  have := classify_arguments_fallthrough g ctx identifier token htok htext hnotin hallow
  rw [this, hglob]
  simp [htext]

/-- C10 witness: `arguments` inside a class method (no enclosing function) is
flagged in a JavaScript file. -/
theorem C10_cast_boundary_witness :
    classify sampleGlobals jsCtx (UnresolvedReference.jsIdentifier argumentsInClassMethod) =
      some ({ start := 30, stop := 39 }, "arguments") :=
  (C10_cast_boundary sampleGlobals jsCtx argumentsInClassMethod argumentsToken
    rfl rfl (by decide) (by decide) (by decide)).2.2.2

end Biome
